import Mathlib

/-!
Verification of `pycpd/rigid_registration.py` (class `RigidRegistration`).

The registration state is embedded as a structure over rational scalars and
matrices.  The external linear-algebra engine's singular value decomposition
and the logarithm are abstract function parameters: the code only forwards
their results, and every theorem quantifies over them (adding the
orthogonality facts numpy guarantees where a claim needs them).

`numpy.linalg.svd(A)` returns a triple `(U, S, Vh)` with `A = U·diag(S)·Vh`;
the code binds the third component to the name `V`, so the spec's `Vᵗ`
(with `A = U·Σ·Vᵗ`) is the code's `V`.  The embedding follows the code's
naming: an `Svd` function returns the pair `(U, V)` of the code.

Shape-sensitive behaviour (1-D versus 2-D numpy arrays, used by the
constructor's seed validation and by the translation update) is modelled
separately with the `NpVal` type, which records the ndim and shape of an
array the way numpy does.
-/

namespace PyCPD

open Matrix

/-- The mutable state of one `RigidRegistration` run: the fields inherited
from `EMRegistration` (clouds `X`, `Y`, correspondence statistics `P`, `P1`,
`Pt1`, `PX`, `Np`, `tolerance`, `sigma2`, `q`, `diff`, transformed cloud `TY`)
together with the fields set by `RigidRegistration` itself (`R`, `t`, `s`,
the three toggles, and the per-iteration statistics `X_hat`, `YPY`, `A`). -/
structure RigidState (N M D : ℕ) where
  X : Matrix (Fin N) (Fin D) ℚ
  Y : Matrix (Fin M) (Fin D) ℚ
  P : Matrix (Fin M) (Fin N) ℚ
  P1 : Fin M → ℚ
  Pt1 : Fin N → ℚ
  PX : Matrix (Fin N) (Fin D) ℚ
  Np : ℚ
  tolerance : ℚ
  sigma2 : ℚ
  q : ℚ
  diff : ℚ
  TY : Matrix (Fin M) (Fin D) ℚ
  R : Matrix (Fin D) (Fin D) ℚ
  t : Fin D → ℚ
  s : ℚ
  do_scale : Bool
  do_rot : Bool
  do_trans : Bool
  X_hat : Matrix (Fin N) (Fin D) ℚ
  YPY : ℚ
  A : Matrix (Fin D) (Fin D) ℚ

/-- An abstract singular value decomposition routine: from a D×D matrix it
produces the pair `(U, V)` the code destructures out of `np.linalg.svd`
(`V` being numpy's `Vh`; the singular values are discarded by the code). -/
abbrev Svd (D : ℕ) :=
  Matrix (Fin D) (Fin D) ℚ → Matrix (Fin D) (Fin D) ℚ × Matrix (Fin D) (Fin D) ℚ

namespace UpdateTransform

variable {N M D : ℕ}

/-- `muX = np.divide(np.sum(self.PX, axis=0), self.Np)`. -/
def muX (st : RigidState N M D) : Fin D → ℚ :=
  fun d => (∑ n, st.PX n d) / st.Np

/-- `muY = np.divide(np.sum(np.dot(np.transpose(self.P), self.Y), axis=0), self.Np)`. -/
def muY (st : RigidState N M D) : Fin D → ℚ :=
  fun d => (∑ n, (st.Pᵀ * st.Y) n d) / st.Np

/-- `self.X_hat = self.X - np.tile(muX, (self.N, 1))`. -/
def X_hat (st : RigidState N M D) : Matrix (Fin N) (Fin D) ℚ :=
  Matrix.of fun n d => st.X n d - muX st d

/-- `Y_hat = self.Y - np.tile(muY, (self.M, 1))`. -/
def Y_hat (st : RigidState N M D) : Matrix (Fin M) (Fin D) ℚ :=
  Matrix.of fun m d => st.Y m d - muY st d

/-- `self.YPY = np.dot(np.transpose(self.P1), np.sum(np.multiply(Y_hat, Y_hat), axis=1))`. -/
def YPY (st : RigidState N M D) : ℚ :=
  ∑ m, st.P1 m * (∑ d, Y_hat st m d * Y_hat st m d)

/-- `self.A = np.dot(np.dot(np.transpose(self.X_hat), np.transpose(self.P)), Y_hat)`. -/
def A (st : RigidState N M D) : Matrix (Fin D) (Fin D) ℚ :=
  (X_hat st)ᵀ * st.Pᵀ * Y_hat st

/-- `C = np.ones((self.D,)); C[self.D - 1] = np.linalg.det(np.dot(U, V))`
where `U, _, V = np.linalg.svd(self.A, full_matrices=True)`. -/
def C (svd : Svd D) (st : RigidState N M D) : Fin D → ℚ :=
  fun d =>
    if (d : ℕ) = D - 1 then ((svd (A st)).1 * (svd (A st)).2).det else 1

/-- `if self.do_rot: self.R = np.transpose(np.dot(np.dot(U, np.diag(C)), V))`. -/
def R (svd : Svd D) (st : RigidState N M D) : Matrix (Fin D) (Fin D) ℚ :=
  if st.do_rot then
    ((svd (A st)).1 * Matrix.diagonal (C svd st) * (svd (A st)).2)ᵀ
  else st.R

/-- `if self.do_scale is True: self.s = np.trace(np.dot(np.transpose(self.A),
np.transpose(self.R))) / self.YPY` — reading the rotation stored at that
point, i.e. the freshly updated one when rotation is enabled. -/
def s (svd : Svd D) (st : RigidState N M D) : ℚ :=
  if st.do_scale then ((A st)ᵀ * (R svd st)ᵀ).trace / YPY st else st.s

/-- `if self.do_trans: self.t = np.transpose(muX) - self.s *
np.dot(np.transpose(self.R), np.transpose(muY))` (entrywise values; the
numpy shape of this expression is tracked by the `NpVal` model below). -/
def t (svd : Svd D) (st : RigidState N M D) : Fin D → ℚ :=
  if st.do_trans then fun d => muX st d - s svd st * ((R svd st)ᵀ *ᵥ muY st) d
  else st.t

end UpdateTransform

/-- `RigidRegistration.update_transform`: stores the centered target cloud,
`YPY` and the cross-covariance `A`, then reassigns exactly the toggled
subset of `{R, s, t}`. -/
def update_transform {N M D : ℕ} (svd : Svd D) (st : RigidState N M D) :
    RigidState N M D :=
  { st with
    X_hat := UpdateTransform.X_hat st
    YPY := UpdateTransform.YPY st
    A := UpdateTransform.A st
    R := UpdateTransform.R svd st
    s := UpdateTransform.s svd st
    t := UpdateTransform.t svd st }

/-- `trAR = np.trace(np.dot(self.A, self.R))`. -/
def trAR {N M D : ℕ} (st : RigidState N M D) : ℚ := (st.A * st.R).trace

/-- `xPx = np.dot(np.transpose(self.Pt1), np.sum(np.multiply(self.X_hat,
self.X_hat), axis=1))`. -/
def xPx {N M D : ℕ} (st : RigidState N M D) : ℚ :=
  ∑ n, st.Pt1 n * (∑ d, st.X_hat n d * st.X_hat n d)

/-- The objective assigned by `update_variance`: `(xPx - 2 * self.s * trAR +
self.s * self.s * self.YPY) / (2 * self.sigma2) + self.D * self.Np / 2 *
np.log(self.sigma2)`, with the logarithm passed in abstractly. -/
def q_new {N M D : ℕ} (log : ℚ → ℚ) (st : RigidState N M D) : ℚ :=
  (xPx st - 2 * st.s * trAR st + st.s * st.s * st.YPY) / (2 * st.sigma2)
    + (D : ℚ) * st.Np / 2 * log st.sigma2

/-- The raw variance `(xPx - self.s * trAR) / (self.Np * self.D)` assigned
before the non-positivity floor is applied. -/
def sigma2_raw {N M D : ℕ} (st : RigidState N M D) : ℚ :=
  (xPx st - st.s * trAR st) / (st.Np * (D : ℚ))

/-- `RigidRegistration.update_variance`: saves `qprev`, recomputes `q` at the
pre-update `sigma2`, sets `diff` to the absolute change of the objective, and
reassigns `sigma2`, flooring it to `tolerance / 10` when it comes out
non-positive. -/
def update_variance {N M D : ℕ} (log : ℚ → ℚ) (st : RigidState N M D) :
    RigidState N M D :=
  { st with
    q := q_new log st
    diff := |q_new log st - st.q|
    sigma2 := if sigma2_raw st ≤ 0 then st.tolerance / 10 else sigma2_raw st }

/-- `RigidRegistration.transform_point_cloud` in its `Y is None` branch:
stores `self.s * np.dot(self.Y, self.R) + self.t` in `self.TY` and returns
`None`. -/
def transform_point_cloud_none {N M D : ℕ} (st : RigidState N M D) :
    RigidState N M D × Option (Matrix (Fin M) (Fin D) ℚ) :=
  ({ st with TY := Matrix.of fun m d => st.s * (st.Y * st.R) m d + st.t d },
    Option.none)

/-- `RigidRegistration.transform_point_cloud` in its explicit-argument
branch: returns `self.s * np.dot(Y, self.R) + self.t` for the supplied cloud
(of any number of rows `K`) and performs no assignment to the state. -/
def transform_point_cloud_some {N M D K : ℕ} (st : RigidState N M D)
    (Y : Matrix (Fin K) (Fin D) ℚ) :
    RigidState N M D × Matrix (Fin K) (Fin D) ℚ :=
  (st, Matrix.of fun k d => st.s * (Y * st.R) k d + st.t d)

/-- `RigidRegistration.get_registration_parameters`: the `(s, R, t)` snapshot. -/
def get_registration_parameters {N M D : ℕ} (st : RigidState N M D) :
    ℚ × Matrix (Fin D) (Fin D) ℚ × (Fin D → ℚ) :=
  (st.s, st.R, st.t)

/-- A numpy ndarray restricted to the 1-D and 2-D cases the modelled lines
produce, keeping the shape explicit the way numpy does. -/
inductive NpVal where
  | arr1 : (n : ℕ) → (Fin n → ℚ) → NpVal
  | arr2 : (r : ℕ) → (c : ℕ) → (Fin r → Fin c → ℚ) → NpVal

/-- `.ndim` of the array. -/
def NpVal.ndim : NpVal → ℕ
  | .arr1 _ _ => 1
  | .arr2 _ _ _ => 2

/-- `.shape` of the array, as a list of axis lengths. -/
def NpVal.shape : NpVal → List ℕ
  | .arr1 n _ => [n]
  | .arr2 r c _ => [r, c]

/-- `np.transpose`: reverses the axes; on a 1-D array it is the identity. -/
def np_transpose : NpVal → NpVal
  | .arr1 n v => .arr1 n v
  | .arr2 r c v => .arr2 c r fun i j => v j i

/-- `np.dot` on the array ranks the modelled lines combine (`none` stands
for the shape-mismatch error numpy raises; the vector·vector case, whose
result is a scalar, lies outside this fragment and is unused here). -/
def np_dot : NpVal → NpVal → Option NpVal
  | .arr2 r c v, .arr2 r2 c2 w =>
      if h : c = r2 then
        some (.arr2 r c2 fun i j => ∑ k : Fin c, v i k * w (Fin.cast h k) j)
      else none
  | .arr2 r c v, .arr1 n w =>
      if h : c = n then
        some (.arr1 r fun i => ∑ k : Fin c, v i k * w (Fin.cast h k))
      else none
  | .arr1 n v, .arr2 r c w =>
      if h : n = r then
        some (.arr1 c fun j => ∑ k : Fin n, v k * w (Fin.cast h k) j)
      else none
  | .arr1 _ _, .arr1 _ _ => none

/-- `np.sum(·, axis=0)`: column sums of a 2-D array (on a 1-D array the
result is a scalar, outside this fragment). -/
def np_sum0 : NpVal → Option NpVal
  | .arr2 r c v => some (.arr1 c fun j => ∑ i : Fin r, v i j)
  | .arr1 _ _ => none

/-- `np.divide(·, x)` with a scalar divisor: elementwise division. -/
def np_div : NpVal → ℚ → NpVal
  | .arr1 n v, x => .arr1 n fun i => v i / x
  | .arr2 r c v, x => .arr2 r c fun i j => v i j / x

/-- Multiplication of an array by a scalar: elementwise. -/
def np_smul : ℚ → NpVal → NpVal
  | x, .arr1 n v => .arr1 n fun i => x * v i
  | x, .arr2 r c v => .arr2 r c fun i j => x * v i j

/-- Subtraction of equal-shape arrays (the only case the modelled lines
reach; numpy's broadcasting cases are unused here and map to `none`). -/
def np_sub : NpVal → NpVal → Option NpVal
  | .arr1 n v, .arr1 m w =>
      if h : m = n then some (.arr1 n fun i => v i - w (Fin.cast h.symm i))
      else none
  | .arr2 r c v, .arr2 r2 c2 w =>
      if h : r2 = r ∧ c2 = c then
        some (.arr2 r c fun i j => v i j - w (Fin.cast h.1.symm i) (Fin.cast h.2.symm j))
      else none
  | _, _ => none

/-- Shape-level model of the translation update inside `update_transform`:
`muX = np.divide(np.sum(PX, axis=0), Np)`,
`muY = np.divide(np.sum(np.dot(np.transpose(P), Y), axis=0), Np)`, and, when
translation is enabled,
`t = np.transpose(muX) - s * np.dot(np.transpose(R), np.transpose(muY))`;
with translation disabled the stored `t` is kept. -/
def update_transform_t (PX P Y R t : NpVal) (Np s : ℚ) (do_trans : Bool) :
    Option NpVal := do
  let muX := np_div (← np_sum0 PX) Np
  let muY := np_div (← np_sum0 (← np_dot (np_transpose P) Y)) Np
  if do_trans then
    let rhs ← np_dot (np_transpose R) (np_transpose muY)
    np_sub (np_transpose muX) (np_smul s rhs)
  else
    pure t

/-- `np.eye(D)`. -/
def np_eye (D : ℕ) : NpVal :=
  .arr2 D D fun i j => if (i : ℕ) = (j : ℕ) then 1 else 0

/-- `np.atleast_2d(np.zeros((1, D)))`. -/
def np_zeros_row (D : ℕ) : NpVal := .arr2 1 D fun _ _ => 0

/-- The seed-rotation rejection test of `__init__`: `R is not None and
((R.ndim != 2) or (R.shape[0] != self.D) or (R.shape[1] != self.D) or not
is_positive_semi_definite(R))`, with the positive-semi-definiteness check
(defined in `utility.py`, outside the given sources) abstracted as `psd`. -/
def badR (psd : NpVal → Bool) (D : ℕ) : Option NpVal → Bool
  | Option.none => false
  | Option.some R =>
      R.ndim != 2 || R.shape.headI != D || R.shape.getD 1 0 != D || !psd R

/-- The seed-translation rejection test of `__init__`: `t is not None and
((t.ndim != 2) or (t.shape[0] != 1) or (t.shape[1] != self.D))`. -/
def badT (D : ℕ) : Option NpVal → Bool
  | Option.none => false
  | Option.some t => t.ndim != 2 || t.shape.headI != 1 || t.shape.getD 1 0 != D

/-- The seed-scale rejection test of `__init__`: `s is not None and (not
isinstance(s, numbers.Number) or s <= 0)` (the isinstance check is enforced
by the type of the seed here). -/
def badS : Option ℚ → Bool
  | Option.none => false
  | Option.some s => decide (s ≤ 0)

/-- The fields `RigidRegistration.__init__` assigns when it succeeds. -/
structure InitResult where
  R : NpVal
  t : NpVal
  s : ℚ
  do_scale : Bool
  do_rot : Bool
  do_trans : Bool

/-- `RigidRegistration.__init__`: validates `D`, the optional seeds, assigns
defaults for the missing seeds, and finally asserts that at least one of the
three toggles is enabled.  A `ValueError` or failed `assert` is an
`Except.error`. -/
def rigid_init (psd : NpVal → Bool) (D : ℕ) (R0 t0 : Option NpVal)
    (s0 : Option ℚ) (do_scale do_rot do_trans : Bool) :
    Except String InitResult :=
  if D ≠ 2 ∧ D ≠ 3 then
    .error "Rigid registration only supports 2D or 3D point clouds."
  else if badR psd D R0 then
    .error "The rotation matrix can only be initialized to DxD positive semi definite matrices."
  else if badT D t0 then
    .error "The translation vector can only be initialized to 1xD matrices."
  else if badS s0 then
    .error "The scale factor must be a positive number."
  else if !(do_scale || do_rot || do_trans) then
    .error "One of transforms needs to be enabled"
  else
    .ok { R := R0.getD (np_eye D), t := t0.getD (np_zeros_row D),
          s := s0.getD 1, do_scale := do_scale, do_rot := do_rot,
          do_trans := do_trans }

/-- The sign function used by the spec's wording `sign(det(U·Vᵗ))`. -/
def sgn (x : ℚ) : ℚ := if 0 < x then 1 else if x < 0 then -1 else 0

/-- A concrete 2×2 identity matrix used to instantiate the theorems. -/
def IW : Matrix (Fin 2) (Fin 2) ℚ := !![1, 0; 0, 1]

/-- A concrete singular value decomposition stand-in returning identity
factors. -/
def svdW : Svd 2 := fun _ => (IW, IW)

/-- A second concrete singular value decomposition stand-in, returning
permutation factors. -/
def svdW2 : Svd 2 := fun _ => (!![0, 1; 1, 0], !![0, 1; 1, 0])

/-- A concrete logarithm stand-in. -/
def logW : ℚ → ℚ := fun _ => 0

/-- A concrete registration state used to instantiate the theorems. -/
def stW : RigidState 2 2 2 where
  X := !![1, 0; 0, 1]
  Y := !![1, 0; 0, 1]
  P := !![1, 0; 0, 1]
  P1 := fun _ => 1
  Pt1 := fun _ => 1
  PX := !![1, 0; 0, 1]
  Np := 2
  tolerance := 1 / 10
  sigma2 := 1
  q := 0
  diff := 0
  TY := !![1, 0; 0, 1]
  R := !![1, 0; 0, 1]
  t := fun _ => 0
  s := 1
  do_scale := true
  do_rot := true
  do_trans := true
  X_hat := !![1, 0; 0, 1]
  YPY := 1
  A := !![0, 0; 0, 0]

/-- `stW` with every toggle disabled. -/
def stF : RigidState 2 2 2 :=
  { stW with do_scale := false, do_rot := false, do_trans := false }

/-- `stW` with rotation disabled and scale enabled. -/
def stG : RigidState 2 2 2 := { stW with do_rot := false }

/-- The determinant of the product of two orthogonal matrices is `1` or `-1`. -/
lemma det_mul_orth {D : ℕ} {U V : Matrix (Fin D) (Fin D) ℚ}
    (hU : Uᵀ * U = 1) (hV : Vᵀ * V = 1) :
    (U * V).det = 1 ∨ (U * V).det = -1 := by
  have hu : U.det * U.det = 1 := by
    have h := congrArg Matrix.det hU
    rwa [Matrix.det_mul, Matrix.det_transpose, Matrix.det_one] at h
  have hv : V.det * V.det = 1 := by
    have h := congrArg Matrix.det hV
    rwa [Matrix.det_mul, Matrix.det_transpose, Matrix.det_one] at h
  rcases mul_self_eq_one_iff.mp hu with h1 | h1 <;>
    rcases mul_self_eq_one_iff.mp hv with h2 | h2 <;>
      simp [Matrix.det_mul, h1, h2]

/-- C1: after the cross-covariance `A` is decomposed by the singular value
decomposition (numpy returning `U` and `V` with `A = U·Σ·V`, so the spec's
`Vᵗ` is this `V`), the correction vector `C` is `1` everywhere except its
last entry, which equals `sign(det(U·V))`; and when rotation is enabled the
stored rotation becomes `(U · diag(C) · V)ᵀ`. -/
theorem C1_svd_correction_and_rotation {N M D : ℕ} (st : RigidState N M D)
    (svd : Svd D) (U V : Matrix (Fin D) (Fin D) ℚ) (hD : 0 < D)
    (hsvd : svd (UpdateTransform.A st) = (U, V))
    (hU : Uᵀ * U = 1) (hV : Vᵀ * V = 1) :
    (∀ d : Fin D, (d : ℕ) ≠ D - 1 → UpdateTransform.C svd st d = 1) ∧
    UpdateTransform.C svd st ⟨D - 1, Nat.sub_lt hD Nat.one_pos⟩ = sgn (U * V).det ∧
    (st.do_rot = true → (update_transform svd st).R
      = (U * Matrix.diagonal (UpdateTransform.C svd st) * V)ᵀ) := by
  refine ⟨fun d hd => ?_, ?_, fun hrot => ?_⟩
  · simp [UpdateTransform.C, hd]
  · have hC : UpdateTransform.C svd st ⟨D - 1, Nat.sub_lt hD Nat.one_pos⟩
        = (U * V).det := by
      simp [UpdateTransform.C, hsvd]
    rw [hC]
    rcases det_mul_orth hU hV with h | h <;> rw [h] <;> norm_num [sgn]
  · simp [update_transform, UpdateTransform.R, hrot, hsvd]

/-- C2: with scale enabled the new scale is
`trace(Aᵀ · Rᵀ) / YPY` (for the freshly stored `A`, `YPY` and rotation), where
`YPY` is the `P1`-weighted sum of squared norms of the centered source
points; with scale disabled `s` is unchanged. -/
theorem C2_scale_update {N M D : ℕ} (st : RigidState N M D) (svd : Svd D) :
    (st.do_scale = true →
      (update_transform svd st).s =
        ((update_transform svd st).Aᵀ * ((update_transform svd st).R)ᵀ).trace
          / (update_transform svd st).YPY) ∧
    ((update_transform svd st).YPY =
      ∑ m, st.P1 m * (∑ d, UpdateTransform.Y_hat st m d ^ 2)) ∧
    (st.do_scale = false → (update_transform svd st).s = st.s) := by
  refine ⟨fun h => ?_, ?_, fun h => ?_⟩
  · simp [update_transform, UpdateTransform.s, h]
  · simp [update_transform, UpdateTransform.YPY, pow_two]
  · simp [update_transform, UpdateTransform.s, h]

/-- C3: the weighted target centroid is the columnwise sum of the stored
weighted aggregate `PX` over `Np`, the weighted source centroid is the
columnwise sum of `Pᵀ·Y` over `Np` (equivalently the `P`-row-sum-weighted
mean of the source points), and both clouds are centered by subtracting
their centroids, giving `X_hat` and `Y_hat`. -/
theorem C3_centroids_and_centering {N M D : ℕ} (st : RigidState N M D)
    (svd : Svd D) :
    (∀ d, UpdateTransform.muX st d = (∑ n, st.PX n d) / st.Np) ∧
    (∀ d, UpdateTransform.muY st d = (∑ n, (st.Pᵀ * st.Y) n d) / st.Np) ∧
    (∀ d, UpdateTransform.muY st d
      = (∑ m, (∑ n, st.P m n) * st.Y m d) / st.Np) ∧
    (∀ n d, (update_transform svd st).X_hat n d
      = st.X n d - UpdateTransform.muX st d) ∧
    (∀ m d, UpdateTransform.Y_hat st m d
      = st.Y m d - UpdateTransform.muY st d) := by
  refine ⟨fun d => rfl, fun d => rfl, fun d => ?_, fun n d => rfl, fun m d => rfl⟩
  unfold UpdateTransform.muY
  congr 1
  simp only [Matrix.mul_apply, Matrix.transpose_apply]
  rw [Finset.sum_comm]
  exact Finset.sum_congr rfl fun m _ => (Finset.sum_mul ..).symm

/-- C4: `update_variance` recomputes the objective at the pre-update
`sigma2` as `(xPx − 2·s·trAR + s²·YPY)/(2·sigma2) + D·Np/2·log(sigma2)`,
sets `diff` to the absolute change from the saved previous objective, and
then assigns `sigma2 := (xPx − s·trAR)/(Np·D)` (kept when positive; the
non-positive case is floored, see the sigma2-positivity theorem), where
`trAR = trace(A·R)` and `xPx` is the `Pt1`-weighted sum of squared norms of
the stored centered target cloud. -/
theorem C4_variance_objective {N M D : ℕ} (st : RigidState N M D)
    (log : ℚ → ℚ) :
    (update_variance log st).q =
      (xPx st - 2 * st.s * trAR st + st.s * st.s * st.YPY) / (2 * st.sigma2)
        + (D : ℚ) * st.Np / 2 * log st.sigma2 ∧
    (update_variance log st).diff = |(update_variance log st).q - st.q| ∧
    trAR st = (st.A * st.R).trace ∧
    xPx st = ∑ n, st.Pt1 n * (∑ d, st.X_hat n d ^ 2) ∧
    (0 < sigma2_raw st →
      (update_variance log st).sigma2
        = (xPx st - st.s * trAR st) / (st.Np * (D : ℚ))) := by
  refine ⟨rfl, rfl, rfl, ?_, fun h => ?_⟩
  · simp [xPx, pow_two]
  · have hne : ¬ sigma2_raw st ≤ 0 := not_le.mpr h
    show (if sigma2_raw st ≤ 0 then st.tolerance / 10 else sigma2_raw st)
      = (xPx st - st.s * trAR st) / (st.Np * (D : ℚ))
    rw [if_neg hne]
    rfl

/-- C5: with a positive configured tolerance, `sigma2` is strictly positive
after `update_variance`: it is floored to `tolerance / 10` whenever the raw
formula is non-positive and keeps the raw value otherwise. -/
theorem C5_sigma2_floor_positive {N M D : ℕ} (st : RigidState N M D)
    (log : ℚ → ℚ) (htol : 0 < st.tolerance) :
    0 < (update_variance log st).sigma2 ∧
    (sigma2_raw st ≤ 0 →
      (update_variance log st).sigma2 = st.tolerance / 10) ∧
    (0 < sigma2_raw st →
      (update_variance log st).sigma2 = sigma2_raw st) := by
  by_cases h : sigma2_raw st ≤ 0
  · refine ⟨?_, fun _ => ?_, fun h2 => absurd h (not_le.mpr h2)⟩
    · simp only [update_variance, h, if_true, if_pos h]
      positivity
    · simp [update_variance, h]
  · refine ⟨?_, fun h2 => absurd h2 h, fun _ => ?_⟩
    · simp only [update_variance, if_neg h]
      exact lt_of_not_le h
    · simp [update_variance, h]

/-- C6: `transform_point_cloud` with no argument stores `s·Y·R + t` in `TY`
and returns `None`; with an explicit cloud it returns `s·cloud·R + t` and
performs no state mutation at all. -/
theorem C6_transform_point_cloud_modes {N M D K : ℕ} (st : RigidState N M D)
    (Yc : Matrix (Fin K) (Fin D) ℚ) :
    ((transform_point_cloud_none st).1.TY
      = Matrix.of fun m d => st.s * (st.Y * st.R) m d + st.t d) ∧
    (transform_point_cloud_none st).2 = Option.none ∧
    ((transform_point_cloud_some st Yc).2
      = Matrix.of fun k d => st.s * (Yc * st.R) k d + st.t d) ∧
    (transform_point_cloud_some st Yc).1 = st :=
  ⟨rfl, rfl, rfl, rfl⟩

/-- C7: `update_transform` leaves each of `R`, `t`, `s` at its previous
value when the matching toggle is disabled; in particular with scale
disabled `s` is identical even across repeated calls. -/
theorem C7_toggles_frame {N M D : ℕ} (st : RigidState N M D)
    (svd svd2 : Svd D) :
    (st.do_scale = false → (update_transform svd st).s = st.s ∧
      (update_transform svd2 (update_transform svd st)).s = st.s) ∧
    (st.do_rot = false → (update_transform svd st).R = st.R) ∧
    (st.do_trans = false → (update_transform svd st).t = st.t) := by
  refine ⟨fun h => ⟨?_, ?_⟩, fun h => ?_, fun h => ?_⟩
  · simp [update_transform, UpdateTransform.s, h]
  · simp [update_transform, UpdateTransform.s, h]
  · simp [update_transform, UpdateTransform.R, h]
  · simp [update_transform, UpdateTransform.t, h]

/-- C10: with rotation disabled and scale enabled, the new scale is computed
against the previously stored rotation — `trace(Aᵀ·R_prevᵀ)/YPY` for the
fresh `A` and `YPY` — and is therefore independent of the singular value
decomposition used by the call. -/
theorem C10_scale_uses_previous_rotation {N M D : ℕ} (st : RigidState N M D)
    (svd svd2 : Svd D) (hrot : st.do_rot = false) (hsc : st.do_scale = true) :
    (update_transform svd st).s =
      ((update_transform svd st).Aᵀ * st.Rᵀ).trace
        / (update_transform svd st).YPY ∧
    (update_transform svd st).s = (update_transform svd2 st).s := by
  constructor <;>
    simp [update_transform, UpdateTransform.s, UpdateTransform.R, hrot, hsc]

/-- C8: construction fails whenever all three toggles are disabled, and with
at least one toggle enabled the toggles never cause a failure: success is
then equivalent to success with all toggles enabled. -/
theorem C8_toggle_validation (psd : NpVal → Bool) (D : ℕ)
    (R0 t0 : Option NpVal) (s0 : Option ℚ) :
    (∃ msg, rigid_init psd D R0 t0 s0 false false false = .error msg) ∧
    (∀ ds dr dt : Bool, (ds || dr || dt) = true →
      ((∃ r, rigid_init psd D R0 t0 s0 ds dr dt = .ok r) ↔
        (∃ r, rigid_init psd D R0 t0 s0 true true true = .ok r))) := by
  constructor
  · unfold rigid_init
    split_ifs with h1 h2 h3 h4 h5
    · exact ⟨_, rfl⟩
    · exact ⟨_, rfl⟩
    · exact ⟨_, rfl⟩
    · exact ⟨_, rfl⟩
    · exact ⟨_, rfl⟩
    · simp at h5
  · intro ds dr dt h
    unfold rigid_init
    rw [h]
    simp only [Bool.true_or, Bool.or_true, Bool.not_true]
    split_ifs <;> simp_all

/-- C9 counterexample: a concrete 2-dimensional configuration in which the
translation update runs with translation enabled, and the stored `t`
comes out as a 1-D array of shape `(2,)` — not a 1×2 matrix as the claim
asserts — because `np.sum(axis=0)` and `np.transpose` produce 1-D arrays. -/
theorem C9_translation_not_row_matrix :
    Option.map NpVal.shape
      (update_transform_t (np_eye 2) (np_eye 2) (np_eye 2) (np_eye 2)
        (np_zeros_row 2) 1 1 true) = some [2] ∧
    Option.map NpVal.shape
      (update_transform_t (np_eye 2) (np_eye 2) (np_eye 2) (np_eye 2)
        (np_zeros_row 2) 1 1 true) ≠ some [1, 2] := by
  exact ⟨rfl, by decide⟩

/-- C9 (amended): a supplied seed `t0` that is not a 1×D matrix is rejected
at construction; but after the translation update with translation enabled
the stored `t` is a one-dimensional array of shape `(D,)` — its entries are
the translation values, yet it is not a 1×D row matrix. -/
theorem C9_translation_shape {N M DD : ℕ} (psd : NpVal → Bool) (D : ℕ)
    (R0 : Option NpVal) (s0 : Option ℚ) (ds dr dt : Bool) (v : NpVal)
    (hv : ¬ (v.ndim = 2 ∧ v.shape = [1, D]))
    (PXf : Fin N → Fin DD → ℚ) (Pf : Fin M → Fin N → ℚ)
    (Yf : Fin M → Fin DD → ℚ) (Rf : Fin DD → Fin DD → ℚ)
    (t0v : NpVal) (Np s : ℚ) :
    (∃ msg, rigid_init psd D R0 (some v) s0 ds dr dt = .error msg) ∧
    Option.map NpVal.shape
      (update_transform_t (.arr2 N DD PXf) (.arr2 M N Pf) (.arr2 M DD Yf)
        (.arr2 DD DD Rf) t0v Np s true) = some [DD] := by
  constructor
  · have hbad : badT D (some v) = true := by
      cases v with
      | arr1 n f => rfl
      | arr2 r c f =>
        have hrc : ¬ (r = 1 ∧ c = D) := by
          simpa [NpVal.ndim, NpVal.shape] using hv
        simp only [badT, NpVal.ndim, NpVal.shape, List.headI,
          List.getD_cons_succ, List.getD_cons_zero, Bool.or_eq_true,
          bne_iff_ne, ne_eq]
        tauto
    unfold rigid_init
    split_ifs with h1 h2 <;> exact ⟨_, rfl⟩
  · simp [update_transform_t, np_sum0, np_transpose, np_dot, np_div,
      np_smul, np_sub, NpVal.shape]

/-- The concrete factor `IW` is orthogonal. -/
lemma IW_orth : IWᵀ * IW = 1 := by
  ext i j
  fin_cases i <;> fin_cases j <;>
    simp [IW, Matrix.mul_apply, Matrix.transpose_apply, Fin.sum_univ_two,
      Matrix.one_apply, Matrix.vecHead, Matrix.vecTail, Matrix.cons_val_zero,
      Matrix.cons_val_one, Matrix.head_cons]

/-- The raw variance formula evaluates to `1/2` at the concrete state. -/
lemma sigma2_raw_stW : sigma2_raw stW = 1 / 2 := by
  norm_num [sigma2_raw, xPx, trAR, stW, Fin.sum_univ_two, Matrix.trace,
    Matrix.diag, Matrix.mul_apply]

/-- Witness for C1: instantiation at the concrete state `stW` with an
identity singular value decomposition, all hypotheses discharged. -/
theorem C1_witness :
    ((0 : ℕ) < 2 ∧ svdW (UpdateTransform.A stW) = (IW, IW) ∧ IWᵀ * IW = 1) ∧
    ((∀ d : Fin 2, (d : ℕ) ≠ 2 - 1 → UpdateTransform.C svdW stW d = 1) ∧
      UpdateTransform.C svdW stW ⟨2 - 1, Nat.sub_lt (by decide) Nat.one_pos⟩
        = sgn (IW * IW).det ∧
      (stW.do_rot = true → (update_transform svdW stW).R
        = (IW * Matrix.diagonal (UpdateTransform.C svdW stW) * IW)ᵀ)) :=
  ⟨⟨by decide, rfl, IW_orth⟩,
    C1_svd_correction_and_rotation stW svdW IW IW (by decide) rfl
      IW_orth IW_orth⟩

/-- Witness for C2 at the concrete state `stW`, whose scale toggle is
enabled. -/
theorem C2_witness :
    stW.do_scale = true ∧
    (update_transform svdW stW).s =
      ((update_transform svdW stW).Aᵀ * ((update_transform svdW stW).R)ᵀ).trace
        / (update_transform svdW stW).YPY :=
  ⟨rfl, (C2_scale_update stW svdW).1 rfl⟩

/-- Witness for C4 at the concrete state `stW`, where the raw variance
formula is positive. -/
theorem C4_witness :
    0 < sigma2_raw stW ∧
    (update_variance logW stW).sigma2
      = (xPx stW - stW.s * trAR stW) / (stW.Np * ((2 : ℕ) : ℚ)) :=
  ⟨by rw [sigma2_raw_stW]; norm_num,
    (C4_variance_objective stW logW).2.2.2.2 (by rw [sigma2_raw_stW]; norm_num)⟩

/-- Witness for C5 at the concrete state `stW`, whose tolerance is
positive. -/
theorem C5_witness :
    0 < stW.tolerance ∧
    (0 < (update_variance logW stW).sigma2 ∧
      (sigma2_raw stW ≤ 0 →
        (update_variance logW stW).sigma2 = stW.tolerance / 10) ∧
      (0 < sigma2_raw stW →
        (update_variance logW stW).sigma2 = sigma2_raw stW)) :=
  ⟨by norm_num [stW], C5_sigma2_floor_positive stW logW (by norm_num [stW])⟩

/-- Witness for C7 at the concrete state `stF`, whose toggles are all
disabled. -/
theorem C7_witness :
    stF.do_scale = false ∧ stF.do_rot = false ∧ stF.do_trans = false ∧
    ((update_transform svdW stF).s = stF.s ∧
      (update_transform svdW2 (update_transform svdW stF)).s = stF.s) ∧
    (update_transform svdW stF).R = stF.R ∧
    (update_transform svdW stF).t = stF.t := by
  have h := C7_toggles_frame stF svdW svdW2
  exact ⟨rfl, rfl, rfl, h.1 rfl, h.2.1 rfl, h.2.2 rfl⟩

/-- Witness for C8 at concrete constructor inputs. -/
theorem C8_witness :
    (∃ msg, rigid_init (fun _ => true) 2 Option.none Option.none Option.none
        false false false = .error msg) ∧
    ((false || true || false) = true →
      ((∃ r, rigid_init (fun _ => true) 2 Option.none Option.none Option.none
          false true false = .ok r) ↔
        (∃ r, rigid_init (fun _ => true) 2 Option.none Option.none Option.none
          true true true = .ok r))) :=
  ⟨(C8_toggle_validation (fun _ => true) 2 Option.none Option.none
      Option.none).1,
    fun h => (C8_toggle_validation (fun _ => true) 2 Option.none Option.none
      Option.none).2 false true false h⟩

/-- Witness for the amended C9: a 1-D seed of length 2 is rejected, and a
concrete well-shaped update yields a `t` of shape `(2,)`. -/
theorem C9_witness :
    (¬ ((NpVal.arr1 2 fun _ => 0).ndim = 2 ∧
        (NpVal.arr1 2 fun _ => 0).shape = [1, 2])) ∧
    ((∃ msg, rigid_init (fun _ => true) 2 Option.none
        (some (NpVal.arr1 2 fun _ => 0)) Option.none true true true
        = .error msg) ∧
      Option.map NpVal.shape
        (update_transform_t (.arr2 2 2 fun _ _ => 0) (.arr2 2 2 fun _ _ => 0)
          (.arr2 2 2 fun _ _ => 0) (.arr2 2 2 fun _ _ => 0)
          (NpVal.arr1 2 fun _ => 0) 1 1 true) = some [2]) :=
  ⟨by decide,
    C9_translation_shape (fun _ => true) 2 Option.none Option.none
      true true true (NpVal.arr1 2 fun _ => 0) (by decide)
      (fun _ _ => 0) (fun _ _ => 0) (fun _ _ => 0) (fun _ _ => 0)
      (NpVal.arr1 2 fun _ => 0) 1 1⟩

/-- Witness for C10 at the concrete state `stG`, whose rotation toggle is
disabled and scale toggle enabled, under two different singular value
decompositions. -/
theorem C10_witness :
    stG.do_rot = false ∧ stG.do_scale = true ∧
    ((update_transform svdW stG).s =
        ((update_transform svdW stG).Aᵀ * stG.Rᵀ).trace
          / (update_transform svdW stG).YPY ∧
      (update_transform svdW stG).s = (update_transform svdW2 stG).s) :=
  ⟨rfl, rfl, C10_scale_uses_previous_rotation stG svdW svdW2 rfl rfl⟩

end PyCPD
